import Mathlib

/-!
Verification development for the vidQuizify transcription pipeline
(`src/unnamed/part_002`, `TranscriptionService`, together with the uploads
service in `src/server/src/modules/uploads/types.ts` and the question schema
in `src/server/src/schemas/question.schema.ts`).

The repository contains two copies of the transcription service; the one in
`src/unnamed/part_002` is the current one (it is the only one that writes
`metadata.duration`, without which segmentation can never run, and it is the
version whose normalizer, retry delays and segment-loop error handling the
specification describes).  All definitions below are shallow embeddings of
that file unless their doc comment says otherwise.

JavaScript semantics are modelled as follows: numbers that can only ever be
finite (JSON-decoded literals, durations) are rationals `ℚ`; numbers that
flow through `Number(...)` / `parseInt(...)` coercions are `JSNum`, which
adds `NaN` and the two infinities; JSON values are `JSVal`; rejected
promises are `Except.error` carrying the error message.  `JSON.parse` is an
external builtin and is passed in as an explicit `jsonParse` parameter, so
every theorem about the normalizer holds for an arbitrary parse function.
-/

attribute [local semireducible] Rat.mul Rat.inv Rat.add Rat.sub

/-- `s.trim()`: strip leading and trailing whitespace.  Implemented
structurally over the character list so that concrete runs evaluate inside
proofs; agrees with ECMAScript trim on ASCII whitespace. -/
def jsTrim (s : String) : String :=
  String.mk (((s.data.dropWhile Char.isWhitespace).reverse.dropWhile
    Char.isWhitespace).reverse)

/-- A JavaScript number: a finite rational, `NaN`, or one of the two
infinities.  `Number(...)` and `parseInt(...)` results live here. -/
inductive JSNum where
  | num (q : ℚ)
  | nan
  | inf
  | negInf
deriving DecidableEq, Repr

namespace JSNum

/-- `Math.min(a, b)`: `NaN` if either argument is `NaN`. -/
def jsMin : JSNum → JSNum → JSNum
  | nan, _ => nan
  | _, nan => nan
  | negInf, _ => negInf
  | _, negInf => negInf
  | inf, y => y
  | x, inf => x
  | num a, num b => num (min a b)

/-- `Math.max(a, b)`: `NaN` if either argument is `NaN`. -/
def jsMax : JSNum → JSNum → JSNum
  | nan, _ => nan
  | _, nan => nan
  | inf, _ => inf
  | _, inf => inf
  | negInf, y => y
  | x, negInf => x
  | num a, num b => num (max a b)

end JSNum

/-- A JSON-decodable JavaScript value, as produced by axios from a JSON
response body.  JSON cannot encode `NaN`, `Infinity`, `undefined` or
functions, so numbers inside a decoded value are finite rationals; `vundef`
is the result of reading an absent object property. -/
inductive JSVal where
  | vundef
  | vnull
  | vbool (b : Bool)
  | vnum (q : ℚ)
  | vstr (s : String)
  | varr (elems : List JSVal)
  | vobj (fields : List (String × JSVal))

namespace JSVal

/-- Property read `v[name]`: on an object, the last binding for `name`
(later duplicate keys win, as in `JSON.parse`); `undefined` otherwise. -/
def getField (v : JSVal) (name : String) : JSVal :=
  match v with
  | vobj fields =>
      fields.foldl (fun acc kv => if kv.1 = name then kv.2 else acc) vundef
  | _ => vundef

/-- JavaScript truthiness: `undefined`, `null`, `false`, `0` and `""` are
falsy; objects and arrays (even empty ones) are truthy. -/
def truthy : JSVal → Bool
  | vundef => false
  | vnull => false
  | vbool b => b
  | vnum q => q ≠ 0
  | vstr s => s ≠ ""
  | varr _ => true
  | vobj _ => true

/-- `Array.isArray(v)`. -/
def isArray : JSVal → Bool
  | varr _ => true
  | _ => false

/-- `typeof v === 'object'`: true for objects, arrays and `null`. -/
def typeofObject : JSVal → Bool
  | vobj _ => true
  | varr _ => true
  | vnull => true
  | _ => false

/-- `typeof v === 'string'`. -/
def typeofString : JSVal → Bool
  | vstr _ => true
  | _ => false

/-- `v === undefined`. -/
def isUndef : JSVal → Bool
  | vundef => true
  | _ => false

mutual

/-- `String(v)` / `v.toString()`.  Arrays join their elements with commas,
plain objects print as `[object Object]`.  Number rendering is approximated
by the rational `toString` (exact for integers; JavaScript prints
non-integers in decimal instead) — the claims below depend only on such a
rendering being non-empty. -/
def jsToString : JSVal → String
  | vundef => "undefined"
  | vnull => "null"
  | vbool b => if b then "true" else "false"
  | vnum q => toString q
  | vstr s => s
  | varr elems => String.intercalate "," (jsToStringList elems)
  | vobj _ => "[object Object]"

/-- `jsToString` mapped over the elements of an array value. -/
def jsToStringList : List JSVal → List String
  | [] => []
  | v :: rest => jsToString v :: jsToStringList rest

end

/-- `a || b` specialised to the uses in the normalizer (value selection). -/
def jsOr (a b : JSVal) : JSVal :=
  if truthy a then a else b

end JSVal

/-- Decimal digit test, as used by the JavaScript numeric grammars. -/
def isDecDigit (c : Char) : Bool :=
  '0' ≤ c && c ≤ '9'

/-- Value of a list of decimal digits. -/
def decDigitsVal (l : List Char) : ℕ :=
  l.foldl (fun a c => a * 10 + (c.toNat - 48)) 0

/-- Digit value in radix `r` (supports the hex letters), `none` if the
character is not a digit of that radix. -/
def radixDigitVal (r : ℕ) (c : Char) : Option ℕ :=
  let v :=
    if isDecDigit c then some (c.toNat - 48)
    else if 'a' ≤ c && c ≤ 'f' then some (c.toNat - 97 + 10)
    else if 'A' ≤ c && c ≤ 'F' then some (c.toNat - 65 + 10)
    else none
  match v with
  | some d => if d < r then some d else none
  | none => none

/-- Value of a digit list in radix `r`, `none` if empty or any digit is
invalid. -/
def radixVal (r : ℕ) : List Char → Option ℕ
  | [] => none
  | l =>
    l.foldl
      (fun acc c =>
        match acc, radixDigitVal r c with
        | some a, some d => some (a * r + d)
        | _, _ => none)
      (some 0)

/-- Parse an unsigned decimal numeric literal
(`digits [. digits] [(e|E) [+|-] digits]`, at least one digit before or
after the point), as in the JavaScript `StringNumericLiteral` grammar. -/
def parseUnsignedDec (l : List Char) : Option ℚ :=
  let ip := l.takeWhile isDecDigit
  let r1 := l.dropWhile isDecDigit
  let fp :=
    match r1 with
    | '.' :: rest => rest.takeWhile isDecDigit
    | _ => []
  let r2 :=
    match r1 with
    | '.' :: rest => rest.dropWhile isDecDigit
    | _ => r1
  if ip.isEmpty && fp.isEmpty then none
  else
    let base : ℚ := (decDigitsVal ip : ℚ) + (decDigitsVal fp : ℚ) / ((10 : ℚ) ^ fp.length)
    match r2 with
    | [] => some base
    | c :: rest =>
      if c = 'e' || c = 'E' then
        let esign : ℤ := match rest with | '-' :: _ => -1 | _ => 1
        let ds := match rest with | '+' :: t => t | '-' :: t => t | t => t
        if ds.isEmpty = false && ds.all isDecDigit then
          some (base * (10 : ℚ) ^ (esign * (decDigitsVal ds : ℤ)))
        else none
      else none

/-- Sign-and-magnitude part of `Number(string)` after trimming: an optional
sign followed by `Infinity` or a decimal literal; anything else is `NaN`. -/
def jsNumberSigned (l : List Char) : JSNum :=
  let (sgn, core) : ℤ × List Char :=
    match l with
    | '+' :: rest => (1, rest)
    | '-' :: rest => (-1, rest)
    | rest => (1, rest)
  if core = "Infinity".data then
    if sgn = 1 then JSNum.inf else JSNum.negInf
  else
    match parseUnsignedDec core with
    | some q => JSNum.num ((sgn : ℚ) * q)
    | none => JSNum.nan

/-- `Number(s)` for a string `s`: trims, maps `""` to `0`, accepts
`0x`/`0b`/`0o` radix literals (unsigned), signed decimal literals and
`Infinity`; everything else is `NaN`. -/
def jsNumberOfString (s : String) : JSNum :=
  let t := (jsTrim s).data
  if t.isEmpty then JSNum.num 0
  else
    match t with
    | '0' :: c :: rest =>
      if c = 'x' || c = 'X' then
        match radixVal 16 rest with
        | some n => JSNum.num n
        | none => JSNum.nan
      else if c = 'b' || c = 'B' then
        match radixVal 2 rest with
        | some n => JSNum.num n
        | none => JSNum.nan
      else if c = 'o' || c = 'O' then
        match radixVal 8 rest with
        | some n => JSNum.num n
        | none => JSNum.nan
      else jsNumberSigned t
    | _ => jsNumberSigned t

/-- `parseInt(s, 10)`: skip leading whitespace, optional sign, then the
longest run of leading decimal digits; `NaN` when there is none. -/
def jsParseInt (s : String) : JSNum :=
  let t := s.data.dropWhile Char.isWhitespace
  let (sgn, core) : ℤ × List Char :=
    match t with
    | '+' :: rest => (1, rest)
    | '-' :: rest => (-1, rest)
    | rest => (1, rest)
  let ds := core.takeWhile isDecDigit
  if ds.isEmpty then JSNum.nan
  else JSNum.num ((sgn * (decDigitsVal ds : ℤ) : ℤ) : ℚ)

/-- `isNaN(x)` for an already-converted number. -/
def jsIsNaN : JSNum → Bool
  | JSNum.nan => true
  | _ => false

mutual

/-- Splitting at each maximal run of whitespace for
`transcript.split(/\s+/)`, keeping the empty strings that JavaScript
produces at a leading or trailing run (`" a ".split(/\s+/)` is
`["", "a", ""]`, `"".split(/\s+/)` is `[""]`).  `\s` is modelled by
`Char.isWhitespace` (ASCII whitespace; JavaScript additionally matches some
Unicode space characters).  `jsSplitAux` accumulates the current token;
`jsSplitSkip` consumes the rest of a whitespace run. -/
def jsSplitAux : List Char → List Char → List String
  | [], acc => [String.mk acc.reverse]
  | c :: rest, acc =>
    if Char.isWhitespace c then
      String.mk acc.reverse :: jsSplitSkip rest
    else
      jsSplitAux rest (c :: acc)

/-- Consume the remainder of a whitespace run, then resume tokenizing. -/
def jsSplitSkip : List Char → List String
  | [] => [""]
  | c :: rest =>
    if Char.isWhitespace c then jsSplitSkip rest
    else jsSplitAux rest [c]

end

/-- `transcript.split(/\s+/)` (src/unnamed/part_002, line 262). -/
def jsSplitWhitespace (s : String) : List String :=
  jsSplitAux s.data []

/-- `SEGMENT_DURATION = 5 * 60` seconds (src/unnamed/part_002, line 83). -/
def SEGMENT_DURATION : ℚ := 5 * 60

/-- One segment descriptor as built by `segmentTranscript`
(src/unnamed/part_002, lines 274-283); the persistence fields
(`videoId`, timestamps) and the initial `status: 'PENDING'` are constant
and omitted. -/
structure RawSegment where
  index : ℕ
  startTime : ℚ
  endTime : ℚ
  text : String
deriving DecidableEq, Repr

/-- The segment-building loop of `TranscriptionService.segmentTranscript`
(src/unnamed/part_002, lines 261-286): `segmentCount = ceil(duration/300)`,
`wordsPerSegment = ceil(wordCount/segmentCount)`, and for each
`i < segmentCount` the descriptor with `startTime = i*300`,
`endTime = min((i+1)*300, duration)`, text the words in
`[i*wordsPerSegment, min((i+1)*wordsPerSegment, wordCount))` joined by
single spaces, with the `Segment {i+1} of {segmentCount}` placeholder when
that text is empty. -/
def buildSegments (words : List String) (duration : ℚ) : List RawSegment :=
  let segmentCount := (⌈duration / SEGMENT_DURATION⌉).toNat
  let wordsPerSegment := (⌈(words.length : ℚ) / (segmentCount : ℚ)⌉).toNat
  (List.range segmentCount).map fun (i : ℕ) =>
    let startTime := (i : ℚ) * SEGMENT_DURATION
    let endTime := min (((i : ℚ) + 1) * SEGMENT_DURATION) duration
    let startWord := i * wordsPerSegment
    let endWord := min ((i + 1) * wordsPerSegment) words.length
    let segmentText := String.intercalate " " ((words.drop startWord).take (endWord - startWord))
    { index := i
      startTime := startTime
      endTime := endTime
      text := if segmentText = "" then s!"Segment {i + 1} of {segmentCount}" else segmentText }

/-- The Segmenter as a pure function of `(transcript, duration)`:
whitespace tokenization followed by `buildSegments`. -/
def runSegmenter (transcript : String) (duration : ℚ) : List RawSegment :=
  buildSegments (jsSplitWhitespace transcript) duration

/-- `TranscriptionService.segmentTranscript` (src/unnamed/part_002, lines
241-297) after the video lookup succeeded: the empty-transcript and
non-positive-duration guards, the segment build, and the batch insert whose
outcome is the `persist` parameter; an insert failure is wrapped as
`Failed to segment transcript: ...`.  The returned list is what was
persisted. -/
def segmentTranscriptRun (videoId : String) (transcript : String) (duration : ℚ)
    (persist : Except String Unit) : Except String (List RawSegment) :=
  if transcript = "" then
    Except.error ("No transcript found for video " ++ videoId)
  else if duration ≤ 0 then
    Except.error ("Invalid video duration: " ++ toString duration)
  else
    let segments := runSegmenter transcript duration
    if 0 < segments.length then
      match persist with
      | Except.ok _ => Except.ok segments
      | Except.error e => Except.error ("Failed to segment transcript: " ++ e)
    else
      Except.ok segments

/-- The mongoose `Number` cast applied when a value is assigned to a
`Number` schema path at document construction
(`new this.questionModel({...})`, src/unnamed/part_002, line 583): a finite
number is stored as-is; `NaN` fails the cast's `assert.ok(!isNaN(val))`,
the invalidation leaves the path unset, and the field reads back
`undefined` (`none`).  The infinities cannot reach this call site — the
clamped `correctAnswer` is a finite number or `NaN` — so they are mapped to
`none` as well, which no theorem below depends on. -/
def mongooseCastNumber : JSNum → Option ℚ
  | JSNum.num q => some q
  | JSNum.nan => none
  | JSNum.inf => none
  | JSNum.negInf => none

/-- A question record as built by the normalizer inside
`TranscriptionService.generateQuestions` (src/unnamed/part_002, lines
583-594); `videoId`, `segmentId` and the timestamps are constant per call
and omitted.  `order` is hard-coded to `0` at that creation site
(line 591).  `correctAnswer` is the mongoose document path after the
`Number` cast: `none` means the cast rejected the value (`NaN`) and the
field reads back `undefined`. -/
structure QuestionDoc where
  question : String
  options : List String
  correctAnswer : Option ℚ
  explanation : String
  order : ℕ
deriving DecidableEq, Repr

/-- The `correctAnswer` fallback chain of src/unnamed/part_002, lines
572-576: when the earlier branches do not apply, a numeric `correct_answer`
or `CorrectAnswer` field, else the initial `0`. -/
def fallbackCA (q : JSVal) : JSNum :=
  match q.getField "correct_answer" with
  | JSVal.vnum x => JSNum.num x
  | _ =>
    match q.getField "CorrectAnswer" with
    | JSVal.vnum x => JSNum.num x
    | _ => JSNum.num 0

/-- The per-candidate body of the normalization loop in
`TranscriptionService.generateQuestions` (src/unnamed/part_002, lines
519-603), returning `none` where the source `continue`s.  `jsonParse`
models the `JSON.parse` builtin used on a string-valued `options` field
(`none` = parse throws); nothing else in the body can throw, so the
enclosing per-candidate `try/catch` adds no further behaviour.  Note the
required-fields guard (line 528) demands `Array.isArray(q.options)`, which
makes the `q.Options` and string-`options` branches below unreachable; they
are kept to mirror the source. -/
def normalizeCandidate (jsonParse : String → Option JSVal) (q : JSVal) :
    Option QuestionDoc :=
  if ¬ q.truthy ∨ ¬ q.typeofObject then none
  else if ¬ (q.getField "question").truthy ∨ ¬ (q.getField "options").isArray
      ∨ (q.getField "correctAnswer").isUndef then none
  else
    let questionText :=
      jsTrim ((q.getField "question").jsOr ((q.getField "Question").jsOr (JSVal.vstr ""))).jsToString
    if questionText = "" then none
    else
      let options :=
        match q.getField "options" with
        | JSVal.varr l => ((JSVal.jsToStringList l).map jsTrim).filter (fun s => s ≠ "")
        | optsv =>
          match q.getField "Options" with
          | JSVal.varr l2 => ((JSVal.jsToStringList l2).map jsTrim).filter (fun s => s ≠ "")
          | _ =>
            match optsv with
            | JSVal.vstr s =>
              if (JSVal.vstr s).truthy then
                match jsonParse s with
                | some (JSVal.varr l3) =>
                    ((JSVal.jsToStringList l3).map jsTrim).filter (fun s => s ≠ "")
                | some v => [jsTrim v.jsToString]
                | none => [jsTrim (JSVal.vstr s).jsToString]
              else []
            | _ => []
      let options := if options.length < 2 then ["True", "False"] else options
      let ca0 : JSNum :=
        match q.getField "correctAnswer" with
        | JSVal.vnum x =>
          if 0 ≤ x ∧ x < (options.length : ℚ) then JSNum.num x else fallbackCA q
        | JSVal.vstr s =>
          if ¬ jsIsNaN (jsNumberOfString s) then jsParseInt s else fallbackCA q
        | _ => fallbackCA q
      let ca := JSNum.jsMax (JSNum.num 0) (JSNum.jsMin ca0 (JSNum.num ((options.length : ℚ) - 1)))
      let explanation :=
        jsTrim ((q.getField "explanation").jsOr ((q.getField "Explanation").jsOr (JSVal.vstr ""))).jsToString
      some { question := questionText
             options := options
             correctAnswer := mongooseCastNumber ca
             explanation := explanation
             order := 0 }

/-- The whole normalization stage of `generateQuestions` on an extracted
candidate list (src/unnamed/part_002, lines 516-611): candidates are
processed in order and the skipped ones dropped; the `validQuestionCount`
bookkeeping and the empty-result early returns do not change the resulting
list. -/
def generateQuestionsNormalize (jsonParse : String → Option JSVal)
    (candidates : List JSVal) : List QuestionDoc :=
  candidates.filterMap (normalizeCandidate jsonParse)

/-- A question record as persisted by `generateQuestionsForVideo`
(src/unnamed/part_002, lines 377-386).  That creation site omits the
`order` field, so the persisted value is the schema default `0`
(src/server/src/schemas/question.schema.ts, line 26).  `correctAnswer` here
is always an actual number: the `typeof`-guard of lines 372-375 replaces a
non-number read by `0` and the clamp of two finite numbers is finite, so
the mongoose cast at this second creation site accepts it. -/
structure PersistedQuestion where
  question : String
  options : List String
  correctAnswer : ℚ
  explanation : String
  order : ℕ
deriving DecidableEq, Repr

/-- The per-question re-normalization in `generateQuestionsForVideo`
(src/unnamed/part_002, lines 360-388): re-trim and re-filter the options
truncated to four, skip (map to `null`) when fewer than two remain, read
`correctAnswer` back from the document through the
`typeof q.correctAnswer === 'number' ? q.correctAnswer : 0` guard of lines
372-375 (an unset path reads back `undefined`, which is not a number, so
`0` is used), clamp it with `Math.max(0, Math.min(..., len - 1))` — both
arguments finite, so plain `max`/`min` — and build the document that is
inserted.  `String(opt || '')` and `String(q.question || '')` are written
out even though they are the identity on strings. -/
def persistStage (q : QuestionDoc) : Option PersistedQuestion :=
  let options :=
    ((q.options.take 4).map (fun opt => jsTrim (if opt = "" then "" else opt))).filter
      (fun s => s ≠ "")
  if options.length < 2 then none
  else
    let ca0 : ℚ :=
      match q.correctAnswer with
      | some x => x
      | none => 0
    let correctAnswer : ℚ := max 0 (min ca0 ((options.length : ℚ) - 1))
    some { question := jsTrim (if q.question = "" then "" else q.question)
           options := options
           correctAnswer := correctAnswer
           explanation := jsTrim (if q.explanation = "" then "" else q.explanation)
           order := 0 }

/-- The Question records persisted for one segment: `generateQuestions`
normalizes the raw candidates, then `generateQuestionsForVideo` maps
`persistStage` over the result, drops the `null`s (`.filter(Boolean)`) and
batch-inserts; when the list from `generateQuestions` is empty nothing is
inserted (src/unnamed/part_002, lines 357-394). -/
def persistedQuestions (jsonParse : String → Option JSVal)
    (candidates : List JSVal) : List PersistedQuestion :=
  let qs := generateQuestionsNormalize jsonParse candidates
  if 0 < qs.length then (qs.map persistStage).reduceOption else []

/-- `MAX_RETRIES = 3` (src/unnamed/part_002, lines 84 and 428). -/
def MAX_RETRIES : ℕ := 3

/-- `RETRY_DELAY = 2000` milliseconds for transcription
(src/unnamed/part_002, line 85). -/
def RETRY_DELAY : ℕ := 2000

/-- The local `RETRY_DELAY = 5000` milliseconds of `generateQuestions`
(src/unnamed/part_002, line 429). -/
def GEN_RETRY_DELAY : ℕ := 5000

/-- Decidable equality for `Except`, used to evaluate concrete run
results. -/
def exceptDecEq {ε α : Type} [DecidableEq ε] [DecidableEq α] :
    (x y : Except ε α) → Decidable (x = y)
  | Except.ok a, Except.ok b =>
    match decEq a b with
    | isTrue h => isTrue (by rw [h])
    | isFalse h => isFalse (fun hh => h (by injection hh))
  | Except.error a, Except.error b =>
    match decEq a b with
    | isTrue h => isTrue (by rw [h])
    | isFalse h => isFalse (fun hh => h (by injection hh))
  | Except.ok _, Except.error _ => isFalse (fun hh => Except.noConfusion hh)
  | Except.error _, Except.ok _ => isFalse (fun hh => Except.noConfusion hh)

instance {ε α : Type} [DecidableEq ε] [DecidableEq α] : DecidableEq (Except ε α) :=
  exceptDecEq

/-- `{ text, duration }` as returned by the transcription endpoint
(src/unnamed/part_002, lines 227-232). -/
structure TranscribeResponse where
  text : String
  duration : ℚ
deriving DecidableEq, Repr

/-- Observable behaviour of one retrying call: how many attempts ran, the
`setTimeout` delays (in milliseconds) between them, and the final
settlement. -/
structure RetryRun (α : Type) where
  attempts : ℕ
  delays : List ℕ
  result : Except String α
deriving DecidableEq, Repr

/-- The retry loop of `TranscriptionService.transcribeAudio`
(src/unnamed/part_002, lines 220-239).  `attempt n` is the outcome of the
`n`-th axios call (an `Except.error` is a rejected request, carrying
`error.message`); `n` is the current attempt number and the second argument
the attempts remaining.  On the final failed attempt the error is wrapped
as `Transcription failed: ...` (line 234); the unreachable fall-through of
line 238 is the `0`-remaining case. -/
def transcribeAudioGo (attempt : ℕ → Except String TranscribeResponse) :
    ℕ → ℕ → RetryRun TranscribeResponse
  | _, 0 =>
    { attempts := 0, delays := []
      result := Except.error "Transcription failed after multiple attempts" }
  | n, remaining + 1 =>
    match attempt n with
    | Except.ok r => { attempts := 1, delays := [], result := Except.ok r }
    | Except.error e =>
      if remaining = 0 then
        { attempts := 1, delays := []
          result := Except.error ("Transcription failed: " ++ e) }
      else
        let rest := transcribeAudioGo attempt (n + 1) remaining
        { attempts := rest.attempts + 1
          delays := RETRY_DELAY * n :: rest.delays
          result := rest.result }

/-- `transcribeAudio` run from attempt `1` with `MAX_RETRIES` attempts. -/
def transcribeAudioRun (attempt : ℕ → Except String TranscribeResponse) :
    RetryRun TranscribeResponse :=
  transcribeAudioGo attempt 1 MAX_RETRIES

/-- Outcome of one axios call in `generateQuestions`: either the promise
rejects (network error, timeout, or a 5xx status — `validateStatus` accepts
only statuses below 500), or it resolves with a status below 500, the
status text and the decoded JSON body. -/
inductive GenAttemptOutcome where
  | netErr (msg : String)
  | resp (status : ℕ) (statusText : String) (body : JSVal)

/-- Candidate extraction from a 200 response body
(src/unnamed/part_002, lines 470-506): `response.data || {}`, then the
`questions` array, else a truthy `error` field raises
`API Error: ...`, else a root array whose members all have a truthy
`question` and an array `options`, else
`Unexpected response format from API`; errors of this block are re-thrown
wrapped as `Failed to process API response: ...` (line 505). -/
def extractCandidates (body : JSVal) : Except String (List JSVal) :=
  let rd := if body.truthy then body else JSVal.vobj []
  if (rd.getField "questions").truthy ∧ (rd.getField "questions").isArray then
    match rd.getField "questions" with
    | JSVal.varr l => Except.ok l
    | _ => Except.ok []
  else if (rd.getField "error").truthy then
    Except.error ("Failed to process API response: API Error: "
      ++ (rd.getField "error").jsToString)
  else
    let possibleQuestions := match rd with | JSVal.varr l => l | _ => []
    if 0 < possibleQuestions.length
        ∧ possibleQuestions.all
            (fun q => (q.getField "question").truthy ∧ (q.getField "options").isArray) then
      Except.ok possibleQuestions
    else
      Except.error "Failed to process API response: Unexpected response format from API"

/-- The body of one attempt of `generateQuestions`
(src/unnamed/part_002, lines 444-611): a rejected call or a non-200 status
or a failing extraction is an error (caught by the retry handler); a
successful extraction feeds the normalizer, and an empty candidate or
normalized list returns `[]`. -/
def perAttempt (jsonParse : String → Option JSVal) (o : GenAttemptOutcome) :
    Except String (List QuestionDoc) :=
  match o with
  | GenAttemptOutcome.netErr m => Except.error m
  | GenAttemptOutcome.resp status statusText body =>
    if status ≠ 200 then
      Except.error ("API returned status " ++ toString status ++ ": " ++ statusText)
    else
      match extractCandidates body with
      | Except.error e => Except.error e
      | Except.ok cands =>
        if cands.length = 0 then Except.ok []
        else
          let docs := generateQuestionsNormalize jsonParse cands
          if docs.length = 0 then Except.ok [] else Except.ok docs

/-- The retry loop of `generateQuestions` (src/unnamed/part_002, lines
431-648).  Unlike `transcribeAudio`, exhausting the retries does NOT
raise: the final `else` branch logs and `return []` (lines 637-640), so the
loop always settles successfully; the result type still admits errors so
that this swallowing is a provable fact rather than a modelling artifact.
The `0`-remaining case is the unreachable `return []` of line 645. -/
def generateQuestionsGo (jsonParse : String → Option JSVal)
    (attempt : ℕ → GenAttemptOutcome) : ℕ → ℕ → RetryRun (List QuestionDoc)
  | _, 0 => { attempts := 0, delays := [], result := Except.ok [] }
  | n, remaining + 1 =>
    match perAttempt jsonParse (attempt n) with
    | Except.ok docs => { attempts := 1, delays := [], result := Except.ok docs }
    | Except.error _ =>
      if remaining = 0 then
        { attempts := 1, delays := [], result := Except.ok [] }
      else
        let rest := generateQuestionsGo jsonParse attempt (n + 1) remaining
        { attempts := rest.attempts + 1
          delays := GEN_RETRY_DELAY * n :: rest.delays
          result := rest.result }

/-- `TranscriptionService.generateQuestions` (src/unnamed/part_002, lines
418-648): the empty-text guard (lines 423-426) returns `[]` without any
attempt; otherwise the retry loop runs from attempt `1`. -/
def generateQuestionsRun (jsonParse : String → Option JSVal)
    (attempt : ℕ → GenAttemptOutcome) (text : String) : RetryRun (List QuestionDoc) :=
  if jsTrim text = "" then { attempts := 0, delays := [], result := Except.ok [] }
  else generateQuestionsGo jsonParse attempt 1 MAX_RETRIES

/-- Segment status values (src/unnamed/part_002 uses `PENDING`,
`GENERATING_QUESTIONS`, `COMPLETED` and `FAILED`; `PROCESSING` also appears
in the `ITranscriptSegment` type). -/
inductive SegStatus where
  | PENDING
  | PROCESSING
  | GENERATING_QUESTIONS
  | COMPLETED
  | FAILED
deriving DecidableEq, Repr

/-- Outcomes of the awaited operations inside one iteration of the segment
loop of `generateQuestionsForVideo` (src/unnamed/part_002, lines 349-411):
the `GENERATING_QUESTIONS` status update, the (never-throwing) result of
`generateQuestions`, the `insertMany` of the built documents, and the
`COMPLETED` status update.  The `FAILED` recovery update inside the `catch`
(lines 405-409) is modelled as succeeding. -/
structure SegOutcome where
  markGenerating : Except String Unit
  gen : List QuestionDoc
  insert : Except String Unit
  markCompleted : Except String Unit
deriving DecidableEq, Repr

/-- Final observable state of one segment after its loop iteration. -/
structure SegFinal where
  status : SegStatus
  error : Option String
  persisted : List PersistedQuestion
deriving DecidableEq, Repr

/-- One iteration of the segment loop (src/unnamed/part_002, lines
349-411): mark `GENERATING_QUESTIONS`, call `generateQuestions`, and when
it returned a non-empty list build the documents with `persistStage` and
insert them, then mark `COMPLETED`; any error is caught, the segment is
marked `FAILED` with the captured message, and nothing escapes the
iteration. -/
def processSegmentRun (o : SegOutcome) : SegFinal :=
  match o.markGenerating with
  | Except.error e => { status := SegStatus.FAILED, error := some e, persisted := [] }
  | Except.ok _ =>
    if 0 < o.gen.length then
      let docs := (o.gen.map persistStage).reduceOption
      match o.insert with
      | Except.error e => { status := SegStatus.FAILED, error := some e, persisted := [] }
      | Except.ok _ =>
        match o.markCompleted with
        | Except.error e =>
          { status := SegStatus.FAILED, error := some e, persisted := docs }
        | Except.ok _ =>
          { status := SegStatus.COMPLETED, error := none, persisted := docs }
    else
      match o.markCompleted with
      | Except.error e => { status := SegStatus.FAILED, error := some e, persisted := [] }
      | Except.ok _ => { status := SegStatus.COMPLETED, error := none, persisted := [] }

/-- The segment loop of `generateQuestionsForVideo` over the selected
segments: each iteration is independent and the loop never aborts early. -/
def generateQuestionsForVideoRun (outcomes : List SegOutcome) : List SegFinal :=
  outcomes.map processSegmentRun

/-- Video status values (`ProcessingStatus`, src/unnamed/part_002,
line 81). -/
inductive VStatus where
  | UPLOADING
  | UPLOADED
  | PROCESSING
  | TRANSCRIBING
  | GENERATING_QUESTIONS
  | COMPLETED
  | FAILED
deriving DecidableEq, Repr

/-- One persisted video status write: `updateVideoStatus(videoId, status,
error?)` stores the status and, only when the message is truthy, the error
text (src/unnamed/part_002, lines 116-120). -/
def videoWrite (status : VStatus) (error : Option String) : VStatus × Option String :=
  (status, match error with
           | some e => if e = "" then none else some e
           | none => none)

/-- Environment of one pipeline run: the stage outcomes that depend on the
file system, the two remote services and the database. -/
structure PipelineEnv where
  videoId : String
  path : String
  fileExists : Bool
  transcribeAttempt : ℕ → Except String TranscribeResponse
  segmentPersist : Except String Unit
  segOutcomes : List SegOutcome

/-- `TranscriptionService.transcribeVideo` (src/unnamed/part_002, lines
183-209): write `TRANSCRIBING`, fail when the file is missing, run
`transcribeAudio`, and wrap any error as `Transcription failed: ...`
(line 207).  The successful metadata write (transcript and duration) is
reflected in the returned response.  Returns the status writes it performed
and its outcome. -/
def transcribeVideoRun (env : PipelineEnv) :
    List (VStatus × Option String) × Except String TranscribeResponse :=
  let writes := [videoWrite VStatus.TRANSCRIBING none]
  let inner : Except String TranscribeResponse :=
    if ¬ env.fileExists then
      Except.error ("Video file not found at path: " ++ env.path)
    else
      (transcribeAudioRun env.transcribeAttempt).result
  match inner with
  | Except.ok r => (writes, Except.ok r)
  | Except.error e => (writes, Except.error ("Transcription failed: " ++ e))

/-- Observable result of one `processVideo` run: the sequence of video
status writes, the final state of every processed segment, and the outcome
of the returned promise. -/
structure RunResult where
  videoWrites : List (VStatus × Option String)
  segResults : List SegFinal
  result : Except String Unit
deriving DecidableEq, Repr

/-- `TranscriptionService.processVideo` (src/unnamed/part_002, lines
151-166): write `PROCESSING`, transcribe, segment, generate questions, and
write `COMPLETED`; any error is caught, `FAILED` is written with the
message, and the error is re-thrown. -/
def processVideoRun (env : PipelineEnv) : RunResult :=
  let w0 := [videoWrite VStatus.PROCESSING none]
  let (wt, tr) := transcribeVideoRun env
  match tr with
  | Except.error e =>
    { videoWrites := w0 ++ wt ++ [videoWrite VStatus.FAILED (some e)]
      segResults := []
      result := Except.error e }
  | Except.ok resp =>
    match segmentTranscriptRun env.videoId resp.text resp.duration env.segmentPersist with
    | Except.error e =>
      { videoWrites := w0 ++ wt ++ [videoWrite VStatus.FAILED (some e)]
        segResults := []
        result := Except.error e }
    | Except.ok _ =>
      { videoWrites := w0 ++ wt ++ [videoWrite VStatus.COMPLETED none]
        segResults := generateQuestionsForVideoRun env.segOutcomes
        result := Except.ok () }

/-- `UploadsService.startTranscriptionProcess`
(src/server/src/modules/uploads/types.ts, lines 299-314): await
`processVideo`, then write `PROCESSING`; on a rejection write `FAILED` with
the message.  Returns the full status-write sequence. -/
def startTranscriptionProcessRun (env : PipelineEnv) : List (VStatus × Option String) :=
  let r := processVideoRun env
  match r.result with
  | Except.ok _ => r.videoWrites ++ [videoWrite VStatus.PROCESSING none]
  | Except.error e => r.videoWrites ++ [videoWrite VStatus.FAILED (some e)]

/-- A stored `TranscriptSegment` as seen by the Mongo queries of
`generateQuestionsForVideo` (index, `text` possibly absent, status). -/
structure SegRecord where
  index : ℕ
  text : Option String
  status : SegStatus
deriving DecidableEq, Repr

/-- The filter of the bulk `updateMany` (src/unnamed/part_002, lines
324-331): `status: 'PENDING'` and `text: { $exists: true, $ne: '' }`. -/
def matchesBulkFilter (s : SegRecord) : Bool :=
  s.status = SegStatus.PENDING
    && (match s.text with
        | some t => t ≠ ""
        | none => false)

/-- The bulk update itself: every matching segment is set `COMPLETED`. -/
def bulkCompletePending (segs : List SegRecord) : List SegRecord :=
  segs.map fun s =>
    if matchesBulkFilter s then { s with status := SegStatus.COMPLETED } else s

/-- The filter of the subsequent `find` (src/unnamed/part_002, lines
333-340): `status ∈ {COMPLETED, PENDING}` and `text: { $exists: true,
$ne: '' }`. -/
def loopSelectFilter (s : SegRecord) : Bool :=
  (s.status = SegStatus.COMPLETED || s.status = SegStatus.PENDING)
    && (match s.text with
        | some t => t ≠ ""
        | none => false)

/-- The segments that enter the per-segment loop: the bulk update runs
first, then the filtered query, sorted by `index`
(src/unnamed/part_002, lines 323-340). -/
def selectLoopSegments (segs : List SegRecord) : List SegRecord :=
  ((bulkCompletePending segs).filter loopSelectFilter).insertionSort
    (fun a b => a.index ≤ b.index)

/-- A `JSON.parse` model that always throws; the candidates used in the
concrete runs below never reach the (dead) string-`options` branch, so any
other parse function gives the same results. -/
def jsonParseNone : String → Option JSVal := fun _ => none

/-- The candidate of the specification example:
`{question:"X?", options:["onlyOne"], correctAnswer:7}`. -/
def candC7 : JSVal :=
  JSVal.vobj [("question", JSVal.vstr "X?"),
              ("options", JSVal.varr [JSVal.vstr "onlyOne"]),
              ("correctAnswer", JSVal.vnum 7)]

/-- A candidate whose `correctAnswer` is the string `""`: `Number("")` is
`0` (not `NaN`), so the string branch is taken, but `parseInt("", 10)` is
`NaN`; the mongoose cast then rejects the `NaN`, the field reads back
`undefined`, and the persist-map guard replaces it by `0`. -/
def candNaN : JSVal :=
  JSVal.vobj [("question", JSVal.vstr "Q?"),
              ("options", JSVal.varr [JSVal.vstr "A", JSVal.vstr "B"]),
              ("correctAnswer", JSVal.vstr "")]

/-- The question record the pipeline persists for `candNaN`. -/
def pqNaNZero : PersistedQuestion :=
  { question := "Q?", options := ["A", "B"], correctAnswer := 0
    explanation := "", order := 0 }

/-- A plain well-formed candidate. -/
def candA : JSVal :=
  JSVal.vobj [("question", JSVal.vstr "A?"),
              ("options", JSVal.varr [JSVal.vstr "x", JSVal.vstr "y"]),
              ("correctAnswer", JSVal.vnum 0)]

/-- A second plain well-formed candidate. -/
def candB : JSVal :=
  JSVal.vobj [("question", JSVal.vstr "B?"),
              ("options", JSVal.varr [JSVal.vstr "u", JSVal.vstr "v", JSVal.vstr "w"]),
              ("correctAnswer", JSVal.vnum 1)]

/-- The question record the pipeline persists for `candA`. -/
def pqA : PersistedQuestion :=
  { question := "A?", options := ["x", "y"], correctAnswer := 0
    explanation := "", order := 0 }

/-- A generation attempt oracle on which every axios call rejects. -/
def genAttemptAllFail : ℕ → GenAttemptOutcome :=
  fun _ => GenAttemptOutcome.netErr "boom"

/-- A pipeline environment in which every stage succeeds. -/
def envAllOk : PipelineEnv :=
  { videoId := "v1", path := "/data/v1.mp4", fileExists := true
    transcribeAttempt := fun _ => Except.ok { text := "hello world", duration := 905 }
    segmentPersist := Except.ok (), segOutcomes := [] }

/-- A pipeline environment in which every transcription attempt rejects
with `net down`. -/
def envTranscribeFail : PipelineEnv :=
  { videoId := "v1", path := "/data/v1.mp4", fileExists := true
    transcribeAttempt := fun _ => Except.error "net down"
    segmentPersist := Except.ok (), segOutcomes := [] }

/-- A segment-loop iteration in which everything succeeds and one question
is produced. -/
def okSegOutcome : SegOutcome :=
  { markGenerating := Except.ok ()
    gen := [{ question := "A?", options := ["x", "y"], correctAnswer := some 0
              explanation := "", order := 0 }]
    insert := Except.ok (), markCompleted := Except.ok () }

/-- A segment-loop iteration whose `insertMany` rejects with `db down`. -/
def failSegOutcome : SegOutcome :=
  { markGenerating := Except.ok ()
    gen := [{ question := "A?", options := ["x", "y"], correctAnswer := some 0
              explanation := "", order := 0 }]
    insert := Except.error "db down", markCompleted := Except.ok () }

/-- A pipeline environment with a succeeding and a failing segment. -/
def envSegMix : PipelineEnv :=
  { videoId := "v1", path := "/data/v1.mp4", fileExists := true
    transcribeAttempt := fun _ => Except.ok { text := "hello world", duration := 905 }
    segmentPersist := Except.ok (), segOutcomes := [okSegOutcome, failSegOutcome] }

/-- The transcription response used by `envSegMix`. -/
def respSegMix : TranscribeResponse := { text := "hello world", duration := 905 }

/-- The segments the Segmenter produces for `("a b", 905)`. -/
def seg905 : List RawSegment :=
  [{ index := 0, startTime := 0, endTime := 300, text := "a" },
   { index := 1, startTime := 300, endTime := 600, text := "b" },
   { index := 2, startTime := 600, endTime := 900, text := "Segment 3 of 4" },
   { index := 3, startTime := 900, endTime := 905, text := "Segment 4 of 4" }]

/-- Stored segments exercising all branches of the bulk update and the
loop query: a pending segment with text, a pending one with empty text, a
failed one, and a pending one with no text at all. -/
def segsC10 : List SegRecord :=
  [{ index := 0, text := some "hello", status := SegStatus.PENDING },
   { index := 1, text := some "", status := SegStatus.PENDING },
   { index := 2, text := some "x", status := SegStatus.FAILED },
   { index := 3, text := none, status := SegStatus.PENDING }]

/-- The single segment of `segsC10` that enters the loop. -/
def segC10sel : SegRecord :=
  { index := 0, text := some "hello", status := SegStatus.COMPLETED }

/-- Every record produced by `persistStage` has `order = 0`, between two
and four options, and a `correctAnswer` in `[0, length)`: the read-back
guard yields a finite number and the clamp forces it between `0` and
`length - 1`. -/
theorem persistStage_spec (q : QuestionDoc) (pq : PersistedQuestion)
    (h : persistStage q = some pq) :
    pq.order = 0 ∧ 2 ≤ pq.options.length ∧ pq.options.length ≤ 4
    ∧ 0 ≤ pq.correctAnswer ∧ pq.correctAnswer < (pq.options.length : ℚ) := by
  dsimp only [persistStage] at h
  split at h
  · exact absurd h (by simp)
  · next hc =>
    injection h with h
    subst h
    dsimp only
    refine ⟨rfl, by omega, ?_, le_max_left _ _, ?_⟩
    · calc (List.filter _ ((q.options.take 4).map _)).length
          ≤ ((q.options.take 4).map _).length := List.length_filter_le _ _
        _ = (q.options.take 4).length := List.length_map _ _
        _ ≤ 4 := by simp [List.length_take]
    · have h2 : 2 ≤ (List.filter (fun s => decide (s ≠ ""))
          ((q.options.take 4).map fun opt => jsTrim (if opt = "" then "" else opt))).length := by
        omega
      have h2q : (2 : ℚ) ≤ ((List.filter (fun s => decide (s ≠ ""))
          ((q.options.take 4).map fun opt => jsTrim (if opt = "" then "" else opt))).length : ℚ) := by
        exact_mod_cast h2
      apply max_lt (by linarith)
      calc min _ (((List.filter (fun s => decide (s ≠ ""))
            ((q.options.take 4).map fun opt => jsTrim (if opt = "" then "" else opt))).length : ℚ) - 1)
          ≤ _ - 1 := min_le_right _ _
        _ < _ := by linarith

/-- Every record in `persistedQuestions` comes from `persistStage`. -/
theorem persistedQuestions_mem (jsonParse : String → Option JSVal)
    (candidates : List JSVal) (pq : PersistedQuestion)
    (h : pq ∈ persistedQuestions jsonParse candidates) :
    ∃ q, persistStage q = some pq := by
  dsimp only [persistedQuestions] at h
  split at h
  · rw [List.reduceOption_mem_iff, List.mem_map] at h
    obtain ⟨q, -, hq⟩ := h
    exact ⟨q, hq⟩
  · exact absurd h (by simp)

/-- C2: every Question record built by the normalizer/segment loop and
persisted satisfies `2 ≤ len(options) ≤ 4` and
`0 ≤ correctAnswer < len(options)`, for every candidate list and every
`JSON.parse` behaviour.  A normalizer-internal `NaN` (e.g. from
`correctAnswer: ""`) never reaches a persisted record: the mongoose
`Number` cast rejects it at document construction, the field reads back
`undefined`, and the persist map's `typeof`-number guard replaces it by
`0` before the clamp. -/
theorem c2_question_bounds (jsonParse : String → Option JSVal)
    (candidates : List JSVal) (pq : PersistedQuestion)
    (h : pq ∈ persistedQuestions jsonParse candidates) :
    (2 ≤ pq.options.length ∧ pq.options.length ≤ 4)
    ∧ 0 ≤ pq.correctAnswer ∧ pq.correctAnswer < (pq.options.length : ℚ) := by
  obtain ⟨q, hq⟩ := persistedQuestions_mem jsonParse candidates pq h
  obtain ⟨-, h2, h4, hca⟩ := persistStage_spec q pq hq
  exact ⟨⟨h2, h4⟩, hca⟩

/-- C2 (witness): the bounds applied to the record persisted for the
`correctAnswer: ""` candidate — the very input whose normalizer-internal
`NaN` the cast-and-guard path turns into the in-bounds `0`. -/
theorem c2_question_bounds_witness :
    pqNaNZero ∈ persistedQuestions jsonParseNone [candNaN]
    ∧ 0 ≤ pqNaNZero.correctAnswer
    ∧ pqNaNZero.correctAnswer < (pqNaNZero.options.length : ℚ) :=
  ⟨by decide,
   (c2_question_bounds jsonParseNone [candNaN] pqNaNZero (by decide)).2⟩

/-- C7 (counterexample): normalizing
`{question:"X?", options:["onlyOne"], correctAnswer:7}` does NOT yield
`correctAnswer = 1`. -/
theorem c7_counterexample :
    ¬ ((generateQuestionsNormalize jsonParseNone [candC7]).map
          (fun q => (q.options, q.correctAnswer))
        = [(["True", "False"], (some 1 : Option ℚ))]) := by decide

/-- C7 (amended): that candidate normalizes to `options = ["True","False"]`
and `correctAnswer = 0`: the out-of-range numeric `7` fails the in-range
test of the first branch, so the default `0` is used and the final clamp
keeps it. -/
theorem c7_clamp_amended :
    (generateQuestionsNormalize jsonParseNone [candC7]).map
        (fun q => (q.options, q.correctAnswer))
      = [(["True", "False"], (some 0 : Option ℚ))] := by decide

/-- C8 (counterexample): two emitted candidates are persisted with orders
`[0, 0]`, not `[0, 1]`. -/
theorem c8_counterexample :
    ¬ ((persistedQuestions jsonParseNone [candA, candB]).map (fun q => q.order)
        = [0, 1]) := by decide

/-- C8 (amended): every persisted Question has `order = 0`, regardless of
its position among the emitted candidates: the normalizer hard-codes
`order: 0` and the persisting map omits the field, so the schema default
`0` applies. -/
theorem c8_order_amended (jsonParse : String → Option JSVal)
    (candidates : List JSVal) (pq : PersistedQuestion)
    (h : pq ∈ persistedQuestions jsonParse candidates) :
    pq.order = 0 := by
  obtain ⟨q, hq⟩ := persistedQuestions_mem jsonParse candidates pq h
  exact (persistStage_spec q pq hq).1

/-- C8 (witness): the amended theorem applied to a concrete persisted
record. -/
theorem c8_order_amended_witness :
    pqA ∈ persistedQuestions jsonParseNone [candA, candB] ∧ pqA.order = 0 :=
  ⟨by decide, c8_order_amended jsonParseNone [candA, candB] pqA (by decide)⟩

/-- C4 (code bug evidence): in a run where every stage succeeds,
`startTranscriptionProcess` writes `PROCESSING` after `processVideo` has
already written the final `COMPLETED`, so the persisted status regresses
past COMPLETED to a non-FAILED state. -/
theorem c4_completed_then_processing :
    startTranscriptionProcessRun envAllOk
      = [(VStatus.PROCESSING, none), (VStatus.TRANSCRIBING, none),
         (VStatus.COMPLETED, none), (VStatus.PROCESSING, none)] := by decide

/-- C6 (counterexample): when all `MAX_RETRIES = 3` attempts of
`generateQuestions` fail, the call settles successfully with `[]` — no
Fatal error surfaces past the client. -/
theorem c6_counterexample :
    (generateQuestionsRun jsonParseNone genAttemptAllFail "some transcript").result
        = Except.ok []
    ∧ (generateQuestionsRun jsonParseNone genAttemptAllFail "some transcript").attempts
        = 3 := by decide

/-- The transcription retry loop makes at most `remaining` attempts. -/
theorem transcribeAudioGo_attempts_le (attempt : ℕ → Except String TranscribeResponse) :
    ∀ remaining n, (transcribeAudioGo attempt n remaining).attempts ≤ remaining := by
  intro remaining
  induction remaining with
  | zero => intro n; simp [transcribeAudioGo]
  | succ r ih =>
    intro n
    cases h : attempt n with
    | ok v => simp [transcribeAudioGo, h]
    | error e =>
      by_cases hr : r = 0
      · simp [transcribeAudioGo, h, hr]
      · simpa [transcribeAudioGo, h, hr] using ih (n + 1)

/-- The generation retry loop makes at most `remaining` attempts. -/
theorem generateQuestionsGo_attempts_le (jsonParse : String → Option JSVal)
    (attempt : ℕ → GenAttemptOutcome) :
    ∀ remaining n, (generateQuestionsGo jsonParse attempt n remaining).attempts ≤ remaining := by
  intro remaining
  induction remaining with
  | zero => intro n; simp [generateQuestionsGo]
  | succ r ih =>
    intro n
    cases h : perAttempt jsonParse (attempt n) with
    | ok v => simp [generateQuestionsGo, h]
    | error e =>
      by_cases hr : r = 0
      · simp [generateQuestionsGo, h, hr]
      · simpa [generateQuestionsGo, h, hr] using ih (n + 1)

/-- C5: `transcribeAudio` makes at most `MAX_RETRIES = 3` attempts, with a
delay of `n * RETRY_DELAY` (n * 2 seconds) before retry `n`; when all three
attempts reject, the result is a Fatal error wrapping the last cause, and a
pipeline run with such an environment ends with the video written `FAILED`
carrying a non-empty error message. -/
theorem c5_transcribe_retry :
    (∀ attempt, (transcribeAudioRun attempt).attempts ≤ MAX_RETRIES)
    ∧ (∀ (env : PipelineEnv) (e1 e2 e3 : String),
        env.fileExists = true →
        env.transcribeAttempt 1 = Except.error e1 →
        env.transcribeAttempt 2 = Except.error e2 →
        env.transcribeAttempt 3 = Except.error e3 →
        transcribeAudioRun env.transcribeAttempt
          = { attempts := 3, delays := [RETRY_DELAY * 1, RETRY_DELAY * 2]
              result := Except.error ("Transcription failed: " ++ e3) }
        ∧ (processVideoRun env).videoWrites.getLast?
            = some (VStatus.FAILED,
                some ("Transcription failed: " ++ ("Transcription failed: " ++ e3)))
        ∧ "Transcription failed: " ++ ("Transcription failed: " ++ e3) ≠ "") := by
  constructor
  · intro attempt
    exact transcribeAudioGo_attempts_le attempt MAX_RETRIES 1
  · intro env e1 e2 e3 hfe h1 h2 h3
    have hne : "Transcription failed: " ++ ("Transcription failed: " ++ e3) ≠ "" := by
      intro h
      have := congrArg String.length h
      simp [String.length_append] at this
      exact absurd this.1 (by decide)
    have hrun : transcribeAudioRun env.transcribeAttempt
        = { attempts := 3, delays := [RETRY_DELAY * 1, RETRY_DELAY * 2]
            result := Except.error ("Transcription failed: " ++ e3) } := by
      show transcribeAudioGo env.transcribeAttempt 1 MAX_RETRIES = _
      simp [MAX_RETRIES, transcribeAudioGo, h1, h2, h3]
    refine ⟨hrun, ?_, hne⟩
    simp [processVideoRun, transcribeVideoRun, hfe, hrun, videoWrite, hne]

/-- C5 (witness): the retry statement applied to an environment whose three
transcription attempts all reject with `net down`. -/
theorem c5_transcribe_retry_witness :
    envTranscribeFail.fileExists = true
    ∧ transcribeAudioRun envTranscribeFail.transcribeAttempt
        = { attempts := 3, delays := [RETRY_DELAY * 1, RETRY_DELAY * 2]
            result := Except.error ("Transcription failed: " ++ "net down") } :=
  ⟨rfl,
   (c5_transcribe_retry.2 envTranscribeFail "net down" "net down" "net down"
      rfl rfl rfl rfl).1⟩

/-- C6 (amended): `generateQuestions` makes at most `MAX_RETRIES = 3`
attempts; any non-success status code is a retryable failure; and when the
text is non-empty and all three attempts fail, the delays are
`n * GEN_RETRY_DELAY` (n * 5 seconds) before retry `n` and the call settles
with the empty list — the exhausted failure is swallowed, not escalated. -/
theorem c6_generate_retry_amended :
    (∀ jsonParse attempt text,
        (generateQuestionsRun jsonParse attempt text).attempts ≤ MAX_RETRIES)
    ∧ (∀ (jsonParse : String → Option JSVal) (status : ℕ) (statusText : String) (body : JSVal),
        status ≠ 200 →
        ∃ e, perAttempt jsonParse (GenAttemptOutcome.resp status statusText body)
          = Except.error e)
    ∧ (∀ (jsonParse : String → Option JSVal) (attempt : ℕ → GenAttemptOutcome) (text : String),
        jsTrim text ≠ "" →
        (∀ n, 1 ≤ n → n ≤ MAX_RETRIES → ∃ e, perAttempt jsonParse (attempt n) = Except.error e) →
        generateQuestionsRun jsonParse attempt text
          = { attempts := 3, delays := [GEN_RETRY_DELAY * 1, GEN_RETRY_DELAY * 2]
              result := Except.ok [] }) := by
  refine ⟨?_, ?_, ?_⟩
  · intro jsonParse attempt text
    dsimp only [generateQuestionsRun]
    split
    · simp [MAX_RETRIES]
    · exact generateQuestionsGo_attempts_le jsonParse attempt MAX_RETRIES 1
  · intro jsonParse status statusText body h
    exact ⟨"API returned status " ++ toString status ++ ": " ++ statusText,
      by simp [perAttempt, h]⟩
  · intro jsonParse attempt text ht hall
    obtain ⟨e1, h1⟩ := hall 1 (by omega) (by simp [MAX_RETRIES])
    obtain ⟨e2, h2⟩ := hall 2 (by omega) (by simp [MAX_RETRIES])
    obtain ⟨e3, h3⟩ := hall 3 (by omega) (by simp [MAX_RETRIES])
    show (if jsTrim text = "" then _ else generateQuestionsGo jsonParse attempt 1 MAX_RETRIES) = _
    rw [if_neg ht]
    simp [MAX_RETRIES, generateQuestionsGo, h1, h2, h3]

/-- C6 (witness): the amended statement applied to an oracle on which every
attempt rejects. -/
theorem c6_generate_retry_amended_witness :
    jsTrim "hi" ≠ ""
    ∧ generateQuestionsRun jsonParseNone genAttemptAllFail "hi"
        = { attempts := 3, delays := [GEN_RETRY_DELAY * 1, GEN_RETRY_DELAY * 2]
            result := Except.ok [] } :=
  ⟨by decide,
   c6_generate_retry_amended.2.2 jsonParseNone genAttemptAllFail "hi" (by decide)
     (fun n h1 h2 => ⟨"boom", rfl⟩)⟩

/-- C3: with transcription and segmentation succeeding, the segment loop
processes every selected segment independently (the results are exactly the
pointwise image of the per-segment outcomes), each segment ends `COMPLETED`
or `FAILED` with the captured message of its failing operation, and the
video is written `COMPLETED` and the pipeline resolves regardless of how
many segments failed. -/
theorem c3_segment_isolation (env : PipelineEnv) (resp : TranscribeResponse)
    (hfe : env.fileExists = true)
    (hT : (transcribeAudioRun env.transcribeAttempt).result = Except.ok resp)
    (ht : resp.text ≠ "") (hd : 0 < resp.duration)
    (hp : env.segmentPersist = Except.ok ()) :
    (processVideoRun env).segResults = env.segOutcomes.map processSegmentRun
    ∧ (∀ o : SegOutcome,
        ((processSegmentRun o).status = SegStatus.COMPLETED ∧ (processSegmentRun o).error = none)
        ∨ ∃ e, (processSegmentRun o).status = SegStatus.FAILED
            ∧ (processSegmentRun o).error = some e
            ∧ (o.markGenerating = Except.error e
               ∨ (0 < o.gen.length ∧ o.insert = Except.error e)
               ∨ o.markCompleted = Except.error e))
    ∧ (processVideoRun env).videoWrites.getLast? = some (VStatus.COMPLETED, none)
    ∧ (processVideoRun env).result = Except.ok () := by
  have hseg : segmentTranscriptRun env.videoId resp.text resp.duration env.segmentPersist
      = Except.ok (runSegmenter resp.text resp.duration) := by
    simp [segmentTranscriptRun, ht, not_le.mpr hd, hp]
  have hrun : processVideoRun env
      = { videoWrites := [videoWrite VStatus.PROCESSING none]
            ++ [videoWrite VStatus.TRANSCRIBING none]
            ++ [videoWrite VStatus.COMPLETED none]
          segResults := generateQuestionsForVideoRun env.segOutcomes
          result := Except.ok () } := by
    rw [processVideoRun, transcribeVideoRun, if_neg (by simp [hfe]), hT]
    dsimp only
    rw [hseg]
  refine ⟨by rw [hrun]; rfl, ?_, by rw [hrun]; rfl, by rw [hrun]⟩
  intro o
  rcases o with ⟨mg, gen, ins, mc⟩
  cases mg with
  | error e =>
    right
    exact ⟨e, rfl, rfl, Or.inl rfl⟩
  | ok u =>
    by_cases hg : 0 < gen.length
    · cases ins with
      | error e =>
        right
        refine ⟨e, ?_, ?_, Or.inr (Or.inl ⟨hg, rfl⟩)⟩
          <;> simp [processSegmentRun, hg]
      | ok v =>
        cases mc with
        | error e =>
          right
          refine ⟨e, ?_, ?_, Or.inr (Or.inr rfl)⟩
            <;> simp [processSegmentRun, hg]
        | ok w =>
          left
          constructor <;> simp [processSegmentRun, hg]
    · cases mc with
      | error e =>
        right
        refine ⟨e, ?_, ?_, Or.inr (Or.inr rfl)⟩
          <;> simp [processSegmentRun, hg]
      | ok w =>
        left
        constructor <;> simp [processSegmentRun, hg]

/-- C3 (witness): the isolation statement applied to a concrete environment
whose second segment fails its insert: both segments are processed, the
failing one is FAILED with `db down`, and the video is still COMPLETED. -/
theorem c3_segment_isolation_witness :
    (processVideoRun envSegMix).segResults
        = envSegMix.segOutcomes.map processSegmentRun
    ∧ (processVideoRun envSegMix).videoWrites.getLast? = some (VStatus.COMPLETED, none)
    ∧ (processVideoRun envSegMix).result = Except.ok () :=
  ⟨(c3_segment_isolation envSegMix respSegMix rfl (by decide) (by decide) (by decide) rfl).1,
   (c3_segment_isolation envSegMix respSegMix rfl (by decide) (by decide) (by decide) rfl).2.2.1,
   (c3_segment_isolation envSegMix respSegMix rfl (by decide) (by decide) (by decide) rfl).2.2.2⟩

/-- C9: the Segmenter is deterministic — two runs on the same
`(transcript, duration)` pair produce lists of the same length with equal
`startTime`, `endTime` and byte-identical `text` at every index. -/
theorem c9_segmenter_deterministic (transcript : String) (duration : ℚ)
    (r1 r2 : List RawSegment)
    (h1 : r1 = runSegmenter transcript duration)
    (h2 : r2 = runSegmenter transcript duration) :
    r1.length = r2.length
    ∧ ∀ i (hi1 : i < r1.length) (hi2 : i < r2.length),
        (r1.get ⟨i, hi1⟩).startTime = (r2.get ⟨i, hi2⟩).startTime
        ∧ (r1.get ⟨i, hi1⟩).endTime = (r2.get ⟨i, hi2⟩).endTime
        ∧ (r1.get ⟨i, hi1⟩).text = (r2.get ⟨i, hi2⟩).text := by
  subst h1
  subst h2
  exact ⟨rfl, fun i hi1 hi2 => ⟨rfl, rfl, rfl⟩⟩

/-- C9 (witness): determinism applied to the `("a b", 905)` run, whose
value is `seg905`. -/
theorem c9_segmenter_deterministic_witness :
    seg905 = runSegmenter "a b" 905
    ∧ (seg905.get ⟨0, by decide⟩).text = (seg905.get ⟨0, by decide⟩).text :=
  ⟨by decide,
   ((c9_segmenter_deterministic "a b" 905 seg905 seg905 (by decide) (by decide)).2
      0 (by decide) (by decide)).2.2⟩

/-- C10: the bulk update of `generateQuestionsForVideo` keeps the segment
list aligned, turns every `PENDING` segment with non-empty text into
`COMPLETED`, and every segment selected for the per-segment loop afterwards
already has status `COMPLETED` — before any question generation was
attempted for it. -/
theorem c10_bulk_complete (segs : List SegRecord) :
    (bulkCompletePending segs).length = segs.length
    ∧ (∀ i (h1 : i < segs.length) (h2 : i < (bulkCompletePending segs).length),
        matchesBulkFilter (segs.get ⟨i, h1⟩) = true →
        ((bulkCompletePending segs).get ⟨i, h2⟩).status = SegStatus.COMPLETED)
    ∧ (∀ s ∈ selectLoopSegments segs, s.status = SegStatus.COMPLETED) := by
  refine ⟨by simp [bulkCompletePending], ?_, ?_⟩
  · intro i h1 h2 hm
    simp only [bulkCompletePending, List.get_eq_getElem, List.getElem_map]
    rw [if_pos]
    exact hm
  · intro s hs
    have hs2 : s ∈ (bulkCompletePending segs).filter loopSelectFilter := by
      have hperm := List.perm_insertionSort
        (fun (a : SegRecord) (b : SegRecord) => a.index ≤ b.index)
        ((bulkCompletePending segs).filter loopSelectFilter)
      exact hperm.mem_iff.mp hs
    rw [List.mem_filter] at hs2
    obtain ⟨hmem, hsel⟩ := hs2
    rw [bulkCompletePending, List.mem_map] at hmem
    obtain ⟨t, -, ht⟩ := hmem
    by_cases hm : matchesBulkFilter t = true
    · rw [if_pos hm] at ht
      rw [← ht]
    · rw [if_neg hm] at ht
      subst ht
      simp only [loopSelectFilter, Bool.and_eq_true, Bool.or_eq_true, decide_eq_true_eq] at hsel
      obtain ⟨hst, htext⟩ := hsel
      rcases hst with hst | hst
      · exact hst
      · exfalso
        apply hm
        simp only [matchesBulkFilter, Bool.and_eq_true, decide_eq_true_eq]
        exact ⟨hst, htext⟩

/-- C10 (witness): applied to `segsC10`, the single selected segment is
observed `COMPLETED`. -/
theorem c10_bulk_complete_witness :
    segC10sel ∈ selectLoopSegments segsC10 ∧ segC10sel.status = SegStatus.COMPLETED :=
  ⟨by decide, (c10_bulk_complete segsC10).2.2 segC10sel (by decide)⟩

/-- The Segmenter produces `ceil(duration/300)` descriptors. -/
theorem runSegmenter_length (transcript : String) (duration : ℚ) :
    (runSegmenter transcript duration).length = (⌈duration / 300⌉).toNat := by
  simp [runSegmenter, buildSegments, SEGMENT_DURATION]
  norm_num

/-- The `i`-th descriptor has `startTime = i*300` and
`endTime = min((i+1)*300, duration)`. -/
theorem runSegmenter_get (transcript : String) (duration : ℚ) (i : ℕ)
    (h : i < (runSegmenter transcript duration).length) :
    ((runSegmenter transcript duration).get ⟨i, h⟩).startTime = (i : ℚ) * 300
    ∧ ((runSegmenter transcript duration).get ⟨i, h⟩).endTime
        = min (((i : ℚ) + 1) * 300) duration := by
  simp only [runSegmenter, buildSegments, List.get_eq_getElem, List.getElem_map,
    List.getElem_range]
  constructor <;> norm_num [SEGMENT_DURATION]

/-- Index bounds transfer: `i < ⌈d/300⌉.toNat` gives `i*300 < d`. -/
theorem lt_ceil_mul (duration : ℚ) (i : ℕ) (h : i < (⌈duration / 300⌉).toNat) :
    (i : ℚ) * 300 < duration := by
  have h1 : (i : ℤ) < ⌈duration / 300⌉ := Int.lt_toNat.mp h
  have h2 : (i : ℚ) < duration / 300 := by exact_mod_cast Int.lt_ceil.mp h1
  have h3 : (0 : ℚ) < 300 := by norm_num
  calc (i : ℚ) * 300 < duration / 300 * 300 := by
        exact mul_lt_mul_of_pos_right h2 h3
    _ = duration := by field_simp

/-- The ceiling bound: `d ≤ ⌈d/300⌉.toNat * 300` for positive `d`. -/
theorem le_toNat_ceil_mul (duration : ℚ) (hd : 0 < duration) :
    duration ≤ ((⌈duration / 300⌉).toNat : ℚ) * 300 := by
  have hc : (0 : ℤ) < ⌈duration / 300⌉ := Int.ceil_pos.mpr (by positivity)
  have hcast : (((⌈duration / 300⌉).toNat : ℤ) : ℚ) = ((⌈duration / 300⌉ : ℤ) : ℚ) := by
    exact_mod_cast congrArg Int.cast (Int.toNat_of_nonneg (le_of_lt hc))
  have h1 : duration / 300 ≤ ((⌈duration / 300⌉ : ℤ) : ℚ) := Int.le_ceil _
  have h3 : (0 : ℚ) < 300 := by norm_num
  calc duration = duration / 300 * 300 := by field_simp
    _ ≤ ((⌈duration / 300⌉ : ℤ) : ℚ) * 300 := mul_le_mul_of_nonneg_right h1 (by norm_num)
    _ = ((⌈duration / 300⌉).toNat : ℚ) * 300 := by
        push_cast at hcast ⊢
        rw [hcast]

/-- C1: for every transcript and every `duration > 0` the Segmenter yields
exactly `ceil(duration/300)` descriptors whose `[startTime, endTime)`
ranges start at `0`, are contiguous and non-empty, and end exactly at
`duration`; and for `duration = 905` the boundaries are
`[0,300), [300,600), [600,900), [900,905)` — four segments. -/
theorem c1_segmenter_partition (transcript : String) (duration : ℚ)
    (hd : 0 < duration) :
    (runSegmenter transcript duration).length = (⌈duration / 300⌉).toNat
    ∧ (∀ h0 : 0 < (runSegmenter transcript duration).length,
        ((runSegmenter transcript duration).get ⟨0, h0⟩).startTime = 0)
    ∧ (∀ i (h : i + 1 < (runSegmenter transcript duration).length),
        ((runSegmenter transcript duration).get ⟨i, Nat.lt_of_succ_lt h⟩).endTime
          = ((runSegmenter transcript duration).get ⟨i + 1, h⟩).startTime)
    ∧ (∀ i (h : i < (runSegmenter transcript duration).length),
        ((runSegmenter transcript duration).get ⟨i, h⟩).startTime
          < ((runSegmenter transcript duration).get ⟨i, h⟩).endTime)
    ∧ (∀ h0 : 0 < (runSegmenter transcript duration).length,
        ((runSegmenter transcript duration).get
            ⟨(runSegmenter transcript duration).length - 1, by omega⟩).endTime = duration)
    ∧ ((runSegmenter transcript 905).map fun s => (s.startTime, s.endTime))
        = [((0 : ℚ), (300 : ℚ)), (300, 600), (600, 900), (900, 905)] := by
  have hlen := runSegmenter_length transcript duration
  refine ⟨hlen, ?_, ?_, ?_, ?_, ?_⟩
  · intro h0
    rw [(runSegmenter_get transcript duration 0 h0).1]
    norm_num
  · intro i h
    rw [(runSegmenter_get transcript duration i (Nat.lt_of_succ_lt h)).2,
      (runSegmenter_get transcript duration (i + 1) h).1]
    have hsucc : ((i : ℚ) + 1) * 300 < duration := by
      have : i + 1 < (⌈duration / 300⌉).toNat := by omega
      have := lt_ceil_mul duration (i + 1) this
      push_cast at this
      linarith
    rw [min_eq_left (le_of_lt hsucc)]
    push_cast
    ring
  · intro i h
    rw [(runSegmenter_get transcript duration i h).1,
      (runSegmenter_get transcript duration i h).2]
    have hi : (i : ℚ) * 300 < duration := by
      apply lt_ceil_mul
      omega
    exact lt_min (by linarith) hi
  · intro h0
    have hlast : (runSegmenter transcript duration).length - 1
        < (runSegmenter transcript duration).length := by omega
    rw [(runSegmenter_get transcript duration _ hlast).2]
    have hcnt : 1 ≤ (⌈duration / 300⌉).toNat := by omega
    have hcast : (((runSegmenter transcript duration).length - 1 : ℕ) : ℚ) + 1
        = ((⌈duration / 300⌉).toNat : ℚ) := by
      rw [hlen] at h0 ⊢
      push_cast [Nat.cast_sub hcnt]
      ring
    rw [hcast, min_eq_right (le_toNat_ceil_mul duration hd)]
  · have h905 : ((⌈(905 : ℚ) / 300⌉).toNat) = 4 := by decide
    have hlen905 : (runSegmenter transcript 905).length = 4 := by
      rw [runSegmenter_length]
      exact h905
    apply List.ext_getElem
    · simp [hlen905]
    · intro i hi1 hi2
      simp only [List.getElem_map]
      simp only [List.length_map, hlen905] at hi1
      have hget := runSegmenter_get transcript 905 i (by omega)
      rw [List.get_eq_getElem] at hget
      interval_cases i
        <;> simp only [hget.1, hget.2]
        <;> norm_num

/-- C1 (witness): the partition statement applied at `("a b", 905)`: there
are `ceil(905/300) = 4` segments and the boundary pairs are exactly
`[0,300), [300,600), [600,900), [900,905)`. -/
theorem c1_segmenter_partition_witness :
    (0 : ℚ) < 905
    ∧ (runSegmenter "a b" 905).length = (⌈(905 : ℚ) / 300⌉).toNat
    ∧ ((runSegmenter "a b" 905).map fun s => (s.startTime, s.endTime))
        = [((0 : ℚ), (300 : ℚ)), (300, 600), (600, 900), (900, 905)] :=
  ⟨by norm_num,
   (c1_segmenter_partition "a b" 905 (by norm_num)).1,
   (c1_segmenter_partition "a b" 905 (by norm_num)).2.2.2.2.2⟩
